import Mathlib

/-!
Shallow embedding of the evo-mcp gateway (src/index.js): the tool registry,
the zod input validation layer, the per-operation request mappers, the
response formatter and the `CallToolRequestSchema` dispatcher.  JavaScript
values are modelled by `Json` (JSON values plus `undefined`), zod schemas by
`ZSchema`, and the axios call of each handler by an `OutboundRequest` record.
-/

namespace EvoMcp

/-- Model of a JavaScript value as it occurs in this program: JSON values
plus the distinguished `undefined`. -/
inductive Json where
  | null
  | undefined
  | bool (b : Bool)
  | num (q : Rat)
  | str (s : String)
  | arr (elems : List Json)
  | obj (fields : List (String × Json))

/-- Key lookup in a JS object, last binding wins (JSON.parse keeps the last
duplicate key). -/
def jlookup (m : List (String × Json)) (k : String) : Option Json :=
  (m.reverse.find? (fun p => p.1 == k)).map (·.2)

/-- JS property access `v.k`: `undefined` on a missing key or a non-object. -/
def jget : Json → String → Json
  | .obj m, k => (jlookup m k).getD .undefined
  | _, _ => .undefined

/-- JS truthiness, as used in `if (...)` and `cond ? a : b`. -/
def jsTruthy : Json → Bool
  | .null => false
  | .undefined => false
  | .bool b => b
  | .num q => q != 0
  | .str s => s != ""
  | .arr _ => true
  | .obj _ => true

/-- Left-pad a natural number with zeros to a given width. -/
def padZeros (w : Nat) (m : Nat) : String :=
  let s := toString m
  String.mk (List.replicate (w - s.length) '0') ++ s

/-- JS number-to-string conversion for the finite decimals that arise from
JSON literals (integers exactly; otherwise the shortest finite decimal
expansion; a numerator/denominator fallback for non-decimal rationals,
which no JSON input produces). -/
def numToString (q : Rat) : String :=
  if q.den == 1 then toString q.num
  else
    match (List.range 40).find? (fun k => (q * ((10 : Rat) ^ (k + 1))).den == 1) with
    | some k =>
      let n := (q * ((10 : Rat) ^ (k + 1))).num
      let sign := if n < 0 then "-" else ""
      let m := n.natAbs
      let pw := 10 ^ (k + 1)
      sign ++ toString (m / pw) ++ "." ++ padZeros (k + 1) (m % pw)
    | none => toString q.num ++ "/" ++ toString q.den

/-- One hexadecimal digit. -/
def hexDigit (n : Nat) : Char :=
  if n < 10 then Char.ofNat (48 + n) else Char.ofNat (87 + n)

/-- Four-digit hexadecimal rendering, for `\u00XX` escapes. -/
def hex4 (n : Nat) : String :=
  String.mk [hexDigit (n / 4096 % 16), hexDigit (n / 256 % 16),
             hexDigit (n / 16 % 16), hexDigit (n % 16)]

/-- JSON string-character escaping as performed by `JSON.stringify`. -/
def escChar (c : Char) : String :=
  if c = '"' then "\\\""
  else if c = '\\' then "\\\\"
  else if c = '\n' then "\\n"
  else if c = '\r' then "\\r"
  else if c = '\t' then "\\t"
  else if c = '\x08' then "\\b"
  else if c = '\x0c' then "\\f"
  else if c.toNat < 32 then "\\u" ++ hex4 c.toNat
  else String.singleton c

/-- A JSON string literal with quotes and escapes. -/
def quoteStr (s : String) : String :=
  "\"" ++ String.join (s.data.map escChar) ++ "\""

mutual
/-- Compact `JSON.stringify(v)`: `none` models the JS result `undefined`
(for `undefined` input); object entries with `undefined` values are
dropped, array entries with `undefined` become `null`. -/
def stringify : Json → Option String
  | .null => some "null"
  | .undefined => none
  | .bool b => some (cond b "true" "false")
  | .num q => some (numToString q)
  | .str s => some (quoteStr s)
  | .arr xs => some ("[" ++ String.intercalate "," (stringifyItems xs) ++ "]")
  | .obj m => some ("\x7b" ++ String.intercalate "," (stringifyEntries m) ++ "\x7d")

def stringifyItems : List Json → List String
  | [] => []
  | x :: xs => (stringify x).getD "null" :: stringifyItems xs

def stringifyEntries : List (String × Json) → List String
  | [] => []
  | (k, v) :: rest =>
    match stringify v with
    | some sv => (quoteStr k ++ ":" ++ sv) :: stringifyEntries rest
    | none => stringifyEntries rest
end

/-- Indentation of `2 * lvl` spaces for pretty printing. -/
def sIndent (lvl : Nat) : String :=
  String.mk (List.replicate (2 * lvl) ' ')

mutual
/-- Pretty `JSON.stringify(v, null, 2)` at a given nesting level. -/
def stringifyP : Nat → Json → Option String
  | _, .null => some "null"
  | _, .undefined => none
  | _, .bool b => some (cond b "true" "false")
  | _, .num q => some (numToString q)
  | _, .str s => some (quoteStr s)
  | lvl, .arr xs =>
    match stringifyPItems lvl xs with
    | [] => some "[]"
    | items =>
      some ("[\n" ++ String.intercalate ",\n" items ++ "\n" ++ sIndent lvl ++ "]")
  | lvl, .obj m =>
    match stringifyPEntries lvl m with
    | [] => some "\x7b\x7d"
    | items =>
      some ("\x7b\n" ++ String.intercalate ",\n" items ++ "\n" ++ sIndent lvl ++ "\x7d")

def stringifyPItems : Nat → List Json → List String
  | _, [] => []
  | lvl, x :: xs =>
    (sIndent (lvl + 1) ++ (stringifyP (lvl + 1) x).getD "null") :: stringifyPItems lvl xs

def stringifyPEntries : Nat → List (String × Json) → List String
  | _, [] => []
  | lvl, (k, v) :: rest =>
    match stringifyP (lvl + 1) v with
    | some sv => (sIndent (lvl + 1) ++ quoteStr k ++ ": " ++ sv) :: stringifyPEntries lvl rest
    | none => stringifyPEntries lvl rest
end

/-- Template interpolation of `JSON.stringify(v, null, 2)`: the JS value
`undefined` string-coerces to "undefined" inside a template literal. -/
def pretty (v : Json) : String :=
  (stringifyP 0 v).getD "undefined"

mutual
/-- JS string coercion of a value, as in a template literal. -/
def jsDisplay : Json → String
  | .null => "null"
  | .undefined => "undefined"
  | .bool b => cond b "true" "false"
  | .num q => numToString q
  | .str s => s
  | .arr xs => String.intercalate "," (jsDisplayItems xs)
  | .obj _ => "[object Object]"

def jsDisplayItems : List Json → List String
  | [] => []
  | .null :: xs => "" :: jsDisplayItems xs
  | .undefined :: xs => "" :: jsDisplayItems xs
  | x :: xs => jsDisplay x :: jsDisplayItems xs
end

/-- One zod validation issue: the field path and the issue message. -/
structure ZIssue where
  path : List String
  message : String
deriving DecidableEq

/-- Optionality of one zod object field: required, `.optional()`, or
carrying a `.default(v)` (which subsumes `.optional().default(v)`). -/
inductive ZMod where
  | required
  | optional
  | withDefault (d : Json)

mutual
/-- The zod schema combinators used in `schemas.toolInputs`. -/
inductive ZSchema where
  /-- The `z.string()` schema. -/
  | zstring
  /-- The `z.number()` schema with optional `.int()` and `.min(lo)` / `.positive()`
  (`strict` selects the strict bound of `.positive()`). -/
  | znumber (isInt : Bool) (lo : Option Rat) (strict : Bool)
  /-- The `z.boolean()` schema. -/
  | zboolean
  /-- The refinement `z.boolean().refine(val => val === true)` carrying a
  custom failure message. -/
  | zboolRefineTrue (msg : String)
  /-- The `z.enum([...])` schema over string literals. -/
  | zenum (vals : List String)
  /-- The `z.enum([...])` schema applied to number literals (as in `toggle_ephemeral`):
  zod's enum parser first requires a string input, so no number passes. -/
  | znumLitEnum (vals : List Rat)
  /-- The `z.array(elem)` schema with optional `.min` / `.max` length bounds. -/
  | zarray (elem : ZSchema) (minLen : Option Nat) (maxLen : Option Nat)
  /-- The `z.object(...)` schema (unknown keys stripped, zod default). -/
  | zobject (fields : ZFields)

/-- The ordered field list of a `z.object`. -/
inductive ZFields where
  | fnil
  | fcons (name : String) (mod : ZMod) (s : ZSchema) (rest : ZFields)
end

/-- Build a `ZFields` list from ordinary list syntax. -/
def zfields (l : List (String × ZMod × ZSchema)) : ZFields :=
  l.foldr (fun p r => .fcons p.1 p.2.1 p.2.2 r) .fnil

/-- The declared field names of a `z.object` schema, in order. -/
def fieldNames : ZFields → List String
  | .fnil => []
  | .fcons n _ _ rest => n :: fieldNames rest

/-- zod's `parsedType` name of a value, used in invalid-type messages. -/
def typeName : Json → String
  | .null => "null"
  | .undefined => "undefined"
  | .bool _ => "boolean"
  | .num _ => "number"
  | .str _ => "string"
  | .arr _ => "array"
  | .obj _ => "object"

/-- zod's `invalid_type` issue: "Required" when the input is `undefined`,
otherwise "Expected ..., received ...". -/
def mkTypeIssue (expected : String) (j : Json) : ZIssue :=
  match j with
  | .undefined => ⟨[], "Required"⟩
  | _ => ⟨[], "Expected " ++ expected ++ ", received " ++ typeName j⟩

/-- zod's rendering of enum options: quoted strings joined by " | ". -/
def joinVals (vals : List String) : String :=
  String.intercalate " | " (vals.map (fun v => "\x27" ++ v ++ "\x27"))

/-- zod's rendering of number-literal enum options joined by " | ". -/
def joinNumVals (vals : List Rat) : String :=
  String.intercalate " | " (vals.map numToString)

/-- Prefix every issue path with one segment. -/
def prefixIssues (seg : String) (is : List ZIssue) : List ZIssue :=
  is.map (fun e => ⟨seg :: e.path, e.message⟩)

/-- Elementwise validation of an array with a given element parser,
collecting issues (index-prefixed) and validated elements. -/
def zparseItemsWith (f : Json → Except (List ZIssue) Json) :
    List Json → Nat → List ZIssue × List Json
  | [], _ => ([], [])
  | x :: xs, i =>
    let r := zparseItemsWith f xs (i + 1)
    match f x with
    | .ok v => (r.1, v :: r.2)
    | .error is => (prefixIssues (toString i) is ++ r.1, r.2)

mutual
/-- zod `.parse`: validates a value against a schema, aggregating every
issue (zod reports all violations, not just the first), stripping unknown
object keys, and filling declared defaults. -/
def zparse : ZSchema → Json → Except (List ZIssue) Json
  | .zstring, j =>
    match j with
    | .str s => .ok (.str s)
    | _ => .error [mkTypeIssue "string" j]
  | .znumber isInt lo strict, j =>
    match j with
    | .num q =>
      let i1 : List ZIssue :=
        if isInt && !(q.den == 1) then [⟨[], "Expected integer, received float"⟩] else []
      let i2 : List ZIssue :=
        match lo with
        | some m =>
          if (if strict then q ≤ m else q < m) then
            [⟨[], "Number must be greater than " ++
                  (if strict then "" else "or equal to ") ++ numToString m⟩]
          else []
        | none => []
      if (i1 ++ i2).isEmpty then .ok (.num q) else .error (i1 ++ i2)
    | _ => .error [mkTypeIssue "number" j]
  | .zboolean, j =>
    match j with
    | .bool b => .ok (.bool b)
    | _ => .error [mkTypeIssue "boolean" j]
  | .zboolRefineTrue msg, j =>
    match j with
    | .bool true => .ok (.bool true)
    | .bool false => .error [⟨[], msg⟩]
    | _ => .error [mkTypeIssue "boolean" j]
  | .zenum vals, j =>
    match j with
    | .str s =>
      if vals.contains s then .ok (.str s)
      else .error [⟨[], "Invalid enum value. Expected " ++ joinVals vals ++
                        ", received \x27" ++ s ++ "\x27"⟩]
    | _ => .error [mkTypeIssue (joinVals vals) j]
  | .znumLitEnum vals, j =>
    match j with
    | .str s =>
      .error [⟨[], "Invalid enum value. Expected " ++ joinNumVals vals ++
                   ", received \x27" ++ s ++ "\x27"⟩]
    | _ => .error [mkTypeIssue (joinNumVals vals) j]
  | .zarray elem lo hi, j =>
    match j with
    | .arr xs =>
      let iLo : List ZIssue :=
        match lo with
        | some m =>
          if xs.length < m then
            [⟨[], "Array must contain at least " ++ toString m ++ " element(s)"⟩]
          else []
        | none => []
      let iHi : List ZIssue :=
        match hi with
        | some m =>
          if xs.length > m then
            [⟨[], "Array must contain at most " ++ toString m ++ " element(s)"⟩]
          else []
        | none => []
      let p := zparseItemsWith (fun x => zparse elem x) xs 0
      if (iLo ++ iHi ++ p.1).isEmpty then .ok (.arr p.2)
      else .error (iLo ++ iHi ++ p.1)
    | _ => .error [mkTypeIssue "array" j]
  | .zobject fields, j =>
    match j with
    | .obj m =>
      let p := zparseFields fields m
      if p.1.isEmpty then .ok (.obj p.2) else .error p.1
    | _ => .error [mkTypeIssue "object" j]

/-- Fieldwise validation of an object against a field list, collecting
issues (path-prefixed) and output entries in declared order; absent
optional fields are skipped and absent defaulted fields are filled. -/
def zparseFields : ZFields → List (String × Json) → List ZIssue × List (String × Json)
  | .fnil, _ => ([], [])
  | .fcons name mod s rest, m =>
    let r := zparseFields rest m
    match jlookup m name with
    | none =>
      match mod with
      | .required => (⟨[name], "Required"⟩ :: r.1, r.2)
      | .optional => (r.1, r.2)
      | .withDefault d => (r.1, (name, d) :: r.2)
    | some .undefined =>
      match mod with
      | .required => (⟨[name], "Required"⟩ :: r.1, r.2)
      | .optional => (r.1, r.2)
      | .withDefault d => (r.1, (name, d) :: r.2)
    | some v =>
      match zparse s v with
      | .ok w => (r.1, (name, w) :: r.2)
      | .error is => (prefixIssues name is ++ r.1, r.2)
end

/-- AmbientConfig: the three environment values read by the handlers.
`EVOLUTION_APIKEY` and `EVOLUTION_INSTANCE` are required (`getEnv` throws
when they are unset); `EVOLUTION_API_BASE` has the fallback default
"localhost:8080", so it is carried here as the raw optional value. -/
structure AmbientConfig where
  apiKey : String
  instanceId : String
  apiBaseUrl : Option String

/-- Resolution of `getEnv("EVOLUTION_API_BASE", "localhost:8080")`: the JS
`value || defaultValue` also sends the empty string to the default. -/
def resolveApiBase : Option String → String
  | none => "localhost:8080"
  | some s => if s == "" then "localhost:8080" else s

/-- The 54 operation names registered in `toolHandlers`. -/
inductive Tool where
  | create_instance
  | fetch_instances
  | connect_instance
  | restart_instance
  | set_presence
  | get_connection_state
  | logout_instance
  | delete_instance
  | set_settings
  | find_settings
  | send_text
  | send_media
  | send_ptv
  | send_whatsapp_audio
  | send_sticker
  | send_location
  | send_contact
  | send_reaction
  | send_poll
  | send_list
  | send_buttons
  | check_whatsapp_numbers
  | mark_message_as_read
  | archive_chat
  | mark_chat_unread
  | delete_message
  | fetch_profile_picture_url
  | get_base64_from_media_message
  | update_message
  | send_presence
  | update_block_status
  | find_contacts
  | find_messages
  | fetch_profile
  | update_profile_name
  | update_profile_status
  | update_profile_picture
  | remove_profile_picture
  | create_group
  | fetch_all_groups
  | find_participants
  | update_participant
  | update_group_subject
  | update_group_description
  | update_group_picture
  | fetch_invite_code
  | revoke_invite_code
  | send_invite
  | find_group_by_invite_code
  | find_group_by_jid
  | update_group_setting
  | toggle_ephemeral
  | leave_group
  | find_webhook_settings
deriving DecidableEq

/-- The string-keyed lookup `toolHandlers[name]` of the dispatcher. -/
def toolOfName : String → Option Tool
  | "create_instance" => some .create_instance
  | "fetch_instances" => some .fetch_instances
  | "connect_instance" => some .connect_instance
  | "restart_instance" => some .restart_instance
  | "set_presence" => some .set_presence
  | "get_connection_state" => some .get_connection_state
  | "logout_instance" => some .logout_instance
  | "delete_instance" => some .delete_instance
  | "set_settings" => some .set_settings
  | "find_settings" => some .find_settings
  | "send_text" => some .send_text
  | "send_media" => some .send_media
  | "send_ptv" => some .send_ptv
  | "send_whatsapp_audio" => some .send_whatsapp_audio
  | "send_sticker" => some .send_sticker
  | "send_location" => some .send_location
  | "send_contact" => some .send_contact
  | "send_reaction" => some .send_reaction
  | "send_poll" => some .send_poll
  | "send_list" => some .send_list
  | "send_buttons" => some .send_buttons
  | "check_whatsapp_numbers" => some .check_whatsapp_numbers
  | "mark_message_as_read" => some .mark_message_as_read
  | "archive_chat" => some .archive_chat
  | "mark_chat_unread" => some .mark_chat_unread
  | "delete_message" => some .delete_message
  | "fetch_profile_picture_url" => some .fetch_profile_picture_url
  | "get_base64_from_media_message" => some .get_base64_from_media_message
  | "update_message" => some .update_message
  | "send_presence" => some .send_presence
  | "update_block_status" => some .update_block_status
  | "find_contacts" => some .find_contacts
  | "find_messages" => some .find_messages
  | "fetch_profile" => some .fetch_profile
  | "update_profile_name" => some .update_profile_name
  | "update_profile_status" => some .update_profile_status
  | "update_profile_picture" => some .update_profile_picture
  | "remove_profile_picture" => some .remove_profile_picture
  | "create_group" => some .create_group
  | "fetch_all_groups" => some .fetch_all_groups
  | "find_participants" => some .find_participants
  | "update_participant" => some .update_participant
  | "update_group_subject" => some .update_group_subject
  | "update_group_description" => some .update_group_description
  | "update_group_picture" => some .update_group_picture
  | "fetch_invite_code" => some .fetch_invite_code
  | "revoke_invite_code" => some .revoke_invite_code
  | "send_invite" => some .send_invite
  | "find_group_by_invite_code" => some .find_group_by_invite_code
  | "find_group_by_jid" => some .find_group_by_jid
  | "update_group_setting" => some .update_group_setting
  | "toggle_ephemeral" => some .toggle_ephemeral
  | "leave_group" => some .leave_group
  | "find_webhook_settings" => some .find_webhook_settings
  | _ => none

/-- Plain `z.number()`. -/
def numPlain : ZSchema := .znumber false none false

/-- The quoted-message option: `z.object({ key: z.object({ id: z.string() }) })`. -/
def quotedSchema : ZSchema :=
  .zobject (zfields [("key", .required, .zobject (zfields [("id", .required, .zstring)]))])

/-- The options object of `send_ptv`, `send_location`, `send_contact`,
`send_poll`, `send_list` and `send_buttons`: delay and quoted only. -/
def optsDelayQuoted : ZSchema :=
  .zobject (zfields [("delay", .optional, numPlain), ("quoted", .optional, quotedSchema)])

/-- The options object of `send_media` and `send_sticker`: delay, quoted,
mentioned. -/
def optsMedia : ZSchema :=
  .zobject (zfields [("delay", .optional, numPlain), ("quoted", .optional, quotedSchema),
                     ("mentioned", .optional, .zarray .zstring none none)])

/-- The options object of `send_text`: delay, quoted, mentionsEveryOne
(default false), mentioned. -/
def optsSendText : ZSchema :=
  .zobject (zfields [("delay", .optional, numPlain), ("quoted", .optional, quotedSchema),
                     ("mentionsEveryOne", .withDefault (.bool false), .zboolean),
                     ("mentioned", .optional, .zarray .zstring none none)])

/-- The options object of `send_whatsapp_audio`: delay, quoted, encoding. -/
def optsAudio : ZSchema :=
  .zobject (zfields [("delay", .optional, numPlain), ("quoted", .optional, quotedSchema),
                     ("encoding", .optional, .zboolean)])

/-- The message key object of `send_reaction`. -/
def reactionKeySchema : ZSchema :=
  .zobject (zfields [("remoteJid", .required, .zstring), ("fromMe", .required, .zboolean),
                     ("id", .required, .zstring)])

/-- Model of `schemas.toolInputs`: the zod object schema of each operation, as the
ordered field list of its top-level `z.object`. -/
def toolInputs : Tool → ZFields
  | .create_instance =>
    zfields [("instanceName", .required, .zstring), ("token", .optional, .zstring),
             ("qrcode", .withDefault (.bool true), .zboolean)]
  | .fetch_instances =>
    zfields [("instanceName", .optional, .zstring), ("instanceId", .optional, .zstring)]
  | .connect_instance => zfields []
  | .restart_instance => zfields []
  | .set_presence =>
    zfields [("presence", .required, .zenum ["available", "unavailable"])]
  | .get_connection_state => zfields []
  | .logout_instance => zfields []
  | .delete_instance => zfields []
  | .set_settings =>
    zfields [("rejectCall", .optional, .zboolean), ("msgCall", .optional, .zstring),
             ("groupsIgnore", .optional, .zboolean), ("alwaysOnline", .optional, .zboolean),
             ("readMessages", .optional, .zboolean), ("syncFullHistory", .optional, .zboolean),
             ("readStatus", .optional, .zboolean)]
  | .find_settings => zfields []
  | .send_text =>
    zfields [("number", .required, .zstring), ("text", .required, .zstring),
             ("options", .optional, optsSendText)]
  | .send_media =>
    zfields [("number", .required, .zstring),
             ("mediatype", .required, .zenum ["image", "video", "document"]),
             ("mimetype", .optional, .zstring), ("media", .required, .zstring),
             ("caption", .optional, .zstring), ("fileName", .optional, .zstring),
             ("options", .optional, optsMedia)]
  | .send_ptv =>
    zfields [("number", .required, .zstring), ("video", .required, .zstring),
             ("options", .optional, optsDelayQuoted)]
  | .send_whatsapp_audio =>
    zfields [("number", .required, .zstring), ("audio", .required, .zstring),
             ("options", .optional, optsAudio)]
  | .send_sticker =>
    zfields [("number", .required, .zstring), ("sticker", .required, .zstring),
             ("options", .optional, optsMedia)]
  | .send_location =>
    zfields [("number", .required, .zstring), ("latitude", .required, numPlain),
             ("longitude", .required, numPlain), ("name", .optional, .zstring),
             ("address", .optional, .zstring), ("options", .optional, optsDelayQuoted)]
  | .send_contact =>
    zfields [("number", .required, .zstring),
             ("contacts", .required, .zarray
               (.zobject (zfields [("fullName", .required, .zstring),
                                   ("wuid", .required, .zstring),
                                   ("phoneNumber", .required, .zstring),
                                   ("organization", .optional, .zstring),
                                   ("email", .optional, .zstring),
                                   ("url", .optional, .zstring)])) none none),
             ("options", .optional, optsDelayQuoted)]
  | .send_reaction =>
    zfields [("key", .required, reactionKeySchema), ("reaction", .required, .zstring)]
  | .send_poll =>
    zfields [("number", .required, .zstring), ("name", .required, .zstring),
             ("selectableCount", .withDefault (.num 1), .znumber true (some 1) false),
             ("values", .required, .zarray .zstring (some 1) none),
             ("options", .optional, optsDelayQuoted)]
  | .send_list =>
    zfields [("number", .required, .zstring), ("title", .required, .zstring),
             ("description", .required, .zstring), ("buttonText", .required, .zstring),
             ("footerText", .optional, .zstring),
             ("sections", .required, .zarray
               (.zobject (zfields [("title", .required, .zstring),
                                   ("rows", .required, .zarray
                                     (.zobject (zfields [("title", .required, .zstring),
                                                         ("description", .optional, .zstring),
                                                         ("rowId", .required, .zstring)]))
                                     (some 1) none)])) (some 1) none),
             ("options", .optional, optsDelayQuoted)]
  | .send_buttons =>
    zfields [("number", .required, .zstring), ("title", .optional, .zstring),
             ("description", .required, .zstring), ("footer", .optional, .zstring),
             ("buttons", .required, .zarray
               (.zobject (zfields [("type", .required,
                                     .zenum ["reply", "url", "call", "copy", "pix"]),
                                   ("displayText", .required, .zstring),
                                   ("id", .optional, .zstring),
                                   ("url", .optional, .zstring),
                                   ("phoneNumber", .optional, .zstring),
                                   ("copyCode", .optional, .zstring),
                                   ("currency", .optional, .zstring),
                                   ("name", .optional, .zstring),
                                   ("keyType", .optional,
                                     .zenum ["phone", "email", "cpf", "cnpj", "random"]),
                                   ("key", .optional, .zstring)])) (some 1) (some 3)),
             ("options", .optional, optsDelayQuoted)]
  | .check_whatsapp_numbers =>
    zfields [("numbers", .required, .zarray .zstring (some 1) none)]
  | .mark_message_as_read =>
    zfields [("readMessages", .required, .zarray
               (.zobject (zfields [("remoteJid", .required, .zstring),
                                   ("fromMe", .required, .zboolean),
                                   ("id", .required, .zstring)])) (some 1) none)]
  | .archive_chat =>
    zfields [("chat", .required, .zstring), ("archive", .required, .zboolean)]
  | .mark_chat_unread =>
    zfields [("chat", .required, .zstring)]
  | .delete_message =>
    zfields [("key", .required,
               .zobject (zfields [("id", .required, .zstring),
                                  ("remoteJid", .required, .zstring),
                                  ("fromMe", .required, .zboolean),
                                  ("participant", .optional, .zstring)]))]
  | .fetch_profile_picture_url =>
    zfields [("number", .required, .zstring)]
  | .get_base64_from_media_message =>
    zfields [("messageKey", .required,
               .zobject (zfields [("id", .required, .zstring),
                                  ("remoteJid", .required, .zstring),
                                  ("fromMe", .required, .zboolean)])),
             ("convertToMp4", .withDefault (.bool false), .zboolean)]
  | .update_message =>
    zfields [("key", .required,
               .zobject (zfields [("id", .required, .zstring),
                                  ("remoteJid", .required, .zstring),
                                  ("fromMe", .required, .zboolRefineTrue
                                    "Can only edit messages sent by the bot (fromMe must be true).")])),
             ("text", .required, .zstring)]
  | .send_presence =>
    zfields [("number", .required, .zstring),
             ("presence", .required,
               .zenum ["unavailable", "available", "composing", "recording", "paused"]),
             ("delay", .withDefault (.num 1200), numPlain)]
  | .update_block_status =>
    zfields [("number", .required, .zstring),
             ("status", .required, .zenum ["block", "unblock"])]
  | .find_contacts => zfields []
  | .find_messages =>
    zfields [("where", .optional,
               .zobject (zfields [("key", .optional,
                 .zobject (zfields [("remoteJid", .optional, .zstring),
                                    ("fromMe", .optional, .zboolean),
                                    ("id", .optional, .zstring)]))])),
             ("page", .withDefault (.num 1), .znumber true (some 0) true),
             ("limit", .withDefault (.num 10), .znumber true (some 0) true)]
  | .fetch_profile =>
    zfields [("number", .required, .zstring)]
  | .update_profile_name =>
    zfields [("name", .required, .zstring)]
  | .update_profile_status =>
    zfields [("status", .required, .zstring)]
  | .update_profile_picture =>
    zfields [("picture", .required, .zstring)]
  | .remove_profile_picture => zfields []
  | .create_group =>
    zfields [("subject", .required, .zstring), ("description", .optional, .zstring),
             ("participants", .required, .zarray .zstring (some 1) none)]
  | .fetch_all_groups =>
    zfields [("getParticipants", .withDefault (.bool false), .zboolean)]
  | .find_participants =>
    zfields [("groupJid", .required, .zstring)]
  | .update_participant =>
    zfields [("groupJid", .required, .zstring),
             ("action", .required, .zenum ["add", "remove", "promote", "demote"]),
             ("participants", .required, .zarray .zstring (some 1) none)]
  | .update_group_subject =>
    zfields [("groupJid", .required, .zstring), ("subject", .required, .zstring)]
  | .update_group_description =>
    zfields [("groupJid", .required, .zstring), ("description", .required, .zstring)]
  | .update_group_picture =>
    zfields [("groupJid", .required, .zstring), ("image", .required, .zstring)]
  | .fetch_invite_code =>
    zfields [("groupJid", .required, .zstring)]
  | .revoke_invite_code =>
    zfields [("groupJid", .required, .zstring)]
  | .send_invite =>
    zfields [("groupJid", .required, .zstring),
             ("numbers", .required, .zarray .zstring (some 1) none),
             ("description", .optional, .zstring)]
  | .find_group_by_invite_code =>
    zfields [("inviteCode", .required, .zstring)]
  | .find_group_by_jid =>
    zfields [("groupJid", .required, .zstring)]
  | .update_group_setting =>
    zfields [("groupJid", .required, .zstring),
             ("action", .required,
               .zenum ["announcement", "not_announcement", "locked", "unlocked"])]
  | .toggle_ephemeral =>
    zfields [("groupJid", .required, .zstring),
             ("expiration", .required, .znumLitEnum [0, 86400, 604800, 7776000])]
  | .leave_group =>
    zfields [("groupJid", .required, .zstring)]
  | .find_webhook_settings => zfields []

/-- Whether the operation's handler calls `.parse` on its arguments (nine
handlers take no arguments and never invoke the validator). -/
def handlerParses : Tool → Bool
  | .connect_instance => false
  | .restart_instance => false
  | .get_connection_state => false
  | .logout_instance => false
  | .delete_instance => false
  | .find_settings => false
  | .find_contacts => false
  | .remove_profile_picture => false
  | .find_webhook_settings => false
  | _ => true

/-- The `const url = ...` template of each handler:
`https://${apiBase}/{resource}/{action}` with `/${instanceName}` appended
where the handler does so. -/
def toolUrl (t : Tool) (cfg : AmbientConfig) : String :=
  let b := resolveApiBase cfg.apiBaseUrl
  let i := cfg.instanceId
  match t with
  | .create_instance => "https://" ++ b ++ "/instance/create"
  | .fetch_instances => "https://" ++ b ++ "/instance/fetchInstances"
  | .connect_instance => "https://" ++ b ++ "/instance/connect/" ++ i
  | .restart_instance => "https://" ++ b ++ "/instance/restart/" ++ i
  | .set_presence => "https://" ++ b ++ "/instance/setPresence/" ++ i
  | .get_connection_state => "https://" ++ b ++ "/instance/connectionState/" ++ i
  | .logout_instance => "https://" ++ b ++ "/instance/logout/" ++ i
  | .delete_instance => "https://" ++ b ++ "/instance/delete/" ++ i
  | .set_settings => "https://" ++ b ++ "/settings/set/" ++ i
  | .find_settings => "https://" ++ b ++ "/settings/find/" ++ i
  | .send_text => "https://" ++ b ++ "/message/sendText/" ++ i
  | .send_media => "https://" ++ b ++ "/message/sendMedia/" ++ i
  | .send_ptv => "https://" ++ b ++ "/message/sendPtv/" ++ i
  | .send_whatsapp_audio => "https://" ++ b ++ "/message/sendWhatsAppAudio/" ++ i
  | .send_sticker => "https://" ++ b ++ "/message/sendSticker/" ++ i
  | .send_location => "https://" ++ b ++ "/message/sendLocation/" ++ i
  | .send_contact => "https://" ++ b ++ "/message/sendContact/" ++ i
  | .send_reaction => "https://" ++ b ++ "/message/sendReaction/" ++ i
  | .send_poll => "https://" ++ b ++ "/message/sendPoll/" ++ i
  | .send_list => "https://" ++ b ++ "/message/sendList/" ++ i
  | .send_buttons => "https://" ++ b ++ "/message/sendButtons/" ++ i
  | .check_whatsapp_numbers => "https://" ++ b ++ "/chat/whatsappNumbers/" ++ i
  | .mark_message_as_read => "https://" ++ b ++ "/chat/markMessageAsRead/" ++ i
  | .archive_chat => "https://" ++ b ++ "/chat/archiveChat/" ++ i
  | .mark_chat_unread => "https://" ++ b ++ "/chat/markChatUnread/" ++ i
  | .delete_message => "https://" ++ b ++ "/chat/deleteMessageForEveryone/" ++ i
  | .fetch_profile_picture_url => "https://" ++ b ++ "/chat/fetchProfilePictureUrl/" ++ i
  | .get_base64_from_media_message => "https://" ++ b ++ "/chat/getBase64FromMediaMessage/" ++ i
  | .update_message => "https://" ++ b ++ "/chat/updateMessage/" ++ i
  | .send_presence => "https://" ++ b ++ "/chat/sendPresence/" ++ i
  | .update_block_status => "https://" ++ b ++ "/chat/updateBlockStatus/" ++ i
  | .find_contacts => "https://" ++ b ++ "/chat/findContacts/" ++ i
  | .find_messages => "https://" ++ b ++ "/chat/findMessages/" ++ i
  | .fetch_profile => "https://" ++ b ++ "/chat/fetchProfile/" ++ i
  | .update_profile_name => "https://" ++ b ++ "/chat/updateProfileName/" ++ i
  | .update_profile_status => "https://" ++ b ++ "/chat/updateProfileStatus/" ++ i
  | .update_profile_picture => "https://" ++ b ++ "/chat/updateProfilePicture/" ++ i
  | .remove_profile_picture => "https://" ++ b ++ "/chat/removeProfilePicture/" ++ i
  | .create_group => "https://" ++ b ++ "/group/create/" ++ i
  | .fetch_all_groups => "https://" ++ b ++ "/group/fetchAllGroups/" ++ i
  | .find_participants => "https://" ++ b ++ "/group/participants/" ++ i
  | .update_participant => "https://" ++ b ++ "/group/updateParticipant/" ++ i
  | .update_group_subject => "https://" ++ b ++ "/group/updateGroupSubject/" ++ i
  | .update_group_description => "https://" ++ b ++ "/group/updateGroupDescription/" ++ i
  | .update_group_picture => "https://" ++ b ++ "/group/updateGroupPicture/" ++ i
  | .fetch_invite_code => "https://" ++ b ++ "/group/inviteCode/" ++ i
  | .revoke_invite_code => "https://" ++ b ++ "/group/revokeInviteCode/" ++ i
  | .send_invite => "https://" ++ b ++ "/group/sendInvite/" ++ i
  | .find_group_by_invite_code => "https://" ++ b ++ "/group/inviteInfo/" ++ i
  | .find_group_by_jid => "https://" ++ b ++ "/group/findGroupInfos/" ++ i
  | .update_group_setting => "https://" ++ b ++ "/group/updateSetting/" ++ i
  | .toggle_ephemeral => "https://" ++ b ++ "/group/toggleEphemeral/" ++ i
  | .leave_group => "https://" ++ b ++ "/group/leaveGroup/" ++ i
  | .find_webhook_settings => "https://" ++ b ++ "/webhook/find/" ++ i

/-- The HTTP method of the single axios call of a handler. -/
inductive HttpMethod where
  | get
  | post
  | delete
deriving DecidableEq

/-- The headers object passed to axios: whether the literal
`'Content-Type': 'application/json'` entry is present, and the value of the
`'apikey'` entry when present. -/
structure RequestHeaders where
  contentTypeJson : Bool
  apikey : Option String
deriving DecidableEq

/-- The single outbound HTTP request issued by a handler: method, URL,
headers, optional axios `params` (query parameters) and optional JSON
body. -/
structure OutboundRequest where
  method : HttpMethod
  url : String
  headers : RequestHeaders
  params : Option Json
  body : Option Json

/-- Headers `{ 'Content-Type': 'application/json', 'apikey': apiKey }`. -/
def hdrJsonKey (cfg : AmbientConfig) : RequestHeaders := ⟨true, some cfg.apiKey⟩

/-- Headers `{ 'apikey': apiKey }`. -/
def hdrKey (cfg : AmbientConfig) : RequestHeaders := ⟨false, some cfg.apiKey⟩

/-- No headers object (the bare `axios.get(url)` of `connect_instance`). -/
def hdrNone : RequestHeaders := ⟨false, none⟩

/-- The outbound request each handler builds from its parsed arguments and
the ambient configuration (for the nine handlers that never parse, the
`parsed` argument is unused). Field lookups are JS property accesses on the
zod parse result, so absent optional fields surface as `undefined`. -/
def buildRequest (t : Tool) (parsed : Json) (cfg : AmbientConfig) : OutboundRequest :=
  match t with
  | .create_instance =>
    ⟨.post, toolUrl t cfg, hdrJsonKey cfg, none, some parsed⟩
  | .fetch_instances =>
    ⟨.get, toolUrl t cfg, hdrKey cfg, some parsed, none⟩
  | .connect_instance =>
    ⟨.get, toolUrl t cfg, hdrNone, none, none⟩
  | .restart_instance =>
    ⟨.post, toolUrl t cfg, hdrKey cfg, none, some (.obj [])⟩
  | .set_presence =>
    ⟨.post, toolUrl t cfg, hdrJsonKey cfg, none, some parsed⟩
  | .get_connection_state =>
    ⟨.get, toolUrl t cfg, hdrKey cfg, none, none⟩
  | .logout_instance =>
    ⟨.delete, toolUrl t cfg, hdrKey cfg, none, none⟩
  | .delete_instance =>
    ⟨.delete, toolUrl t cfg, hdrKey cfg, none, none⟩
  | .set_settings =>
    ⟨.post, toolUrl t cfg, hdrJsonKey cfg, none, some parsed⟩
  | .find_settings =>
    ⟨.get, toolUrl t cfg, hdrKey cfg, none, none⟩
  | .send_text =>
    ⟨.post, toolUrl t cfg, hdrJsonKey cfg, none,
     some (.obj [("number", jget parsed "number"), ("text", jget parsed "text"),
                 ("options", jget parsed "options")])⟩
  | .send_media =>
    ⟨.post, toolUrl t cfg, hdrJsonKey cfg, none,
     some (.obj [("number", jget parsed "number"), ("options", jget parsed "options"),
                 ("media", .obj [("mediatype", jget parsed "mediatype"),
                                 ("mimetype", jget parsed "mimetype"),
                                 ("media", jget parsed "media"),
                                 ("caption", jget parsed "caption"),
                                 ("fileName", jget parsed "fileName")])])⟩
  | .send_ptv =>
    ⟨.post, toolUrl t cfg, hdrJsonKey cfg, none,
     some (.obj [("number", jget parsed "number"), ("options", jget parsed "options"),
                 ("media", .obj [("media", jget parsed "video"),
                                 ("mediatype", .str "video")])])⟩
  | .send_whatsapp_audio =>
    ⟨.post, toolUrl t cfg, hdrJsonKey cfg, none,
     some (.obj [("number", jget parsed "number"), ("options", jget parsed "options"),
                 ("media", .obj [("media", jget parsed "audio"),
                                 ("mediatype", .str "audio")])])⟩
  | .send_sticker =>
    ⟨.post, toolUrl t cfg, hdrJsonKey cfg, none,
     some (.obj [("number", jget parsed "number"), ("options", jget parsed "options"),
                 ("media", .obj [("media", jget parsed "sticker"),
                                 ("mediatype", .str "sticker")])])⟩
  | .send_location =>
    ⟨.post, toolUrl t cfg, hdrJsonKey cfg, none,
     some (.obj [("number", jget parsed "number"), ("options", jget parsed "options"),
                 ("location", .obj [("degreesLatitude", jget parsed "latitude"),
                                    ("degreesLongitude", jget parsed "longitude"),
                                    ("name", jget parsed "name"),
                                    ("address", jget parsed "address")])])⟩
  | .send_contact =>
    ⟨.post, toolUrl t cfg, hdrJsonKey cfg, none,
     some (.obj [("number", jget parsed "number"), ("options", jget parsed "options"),
                 ("contactMessage", .obj [("contacts", jget parsed "contacts")])])⟩
  | .send_reaction =>
    ⟨.post, toolUrl t cfg, hdrJsonKey cfg, none,
     some (.obj [("reactionMessage", parsed)])⟩
  | .send_poll =>
    ⟨.post, toolUrl t cfg, hdrJsonKey cfg, none,
     some (.obj [("number", jget parsed "number"), ("options", jget parsed "options"),
                 ("poll", .obj [("name", jget parsed "name"),
                                ("values", jget parsed "values"),
                                ("selectableCount", jget parsed "selectableCount")])])⟩
  | .send_list =>
    ⟨.post, toolUrl t cfg, hdrJsonKey cfg, none,
     some (.obj [("number", jget parsed "number"), ("options", jget parsed "options"),
                 ("listMessage", .obj [("title", jget parsed "title"),
                                       ("description", jget parsed "description"),
                                       ("buttonText", jget parsed "buttonText"),
                                       ("footerText", jget parsed "footerText"),
                                       ("sections", jget parsed "sections")])])⟩
  | .send_buttons =>
    ⟨.post, toolUrl t cfg, hdrJsonKey cfg, none,
     some (.obj [("number", jget parsed "number"), ("options", jget parsed "options"),
                 ("buttonMessage", .obj [("text", jget parsed "description"),
                                         ("title", jget parsed "title"),
                                         ("footer", jget parsed "footer"),
                                         ("buttons", jget parsed "buttons")])])⟩
  | .check_whatsapp_numbers =>
    ⟨.post, toolUrl t cfg, hdrJsonKey cfg, none, some parsed⟩
  | .mark_message_as_read =>
    ⟨.post, toolUrl t cfg, hdrJsonKey cfg, none, some parsed⟩
  | .archive_chat =>
    ⟨.post, toolUrl t cfg, hdrJsonKey cfg, none,
     some (.obj [("chatId", jget parsed "chat"), ("archive", jget parsed "archive")])⟩
  | .mark_chat_unread =>
    ⟨.post, toolUrl t cfg, hdrJsonKey cfg, none,
     some (.obj [("chatId", jget parsed "chat")])⟩
  | .delete_message =>
    ⟨.post, toolUrl t cfg, hdrJsonKey cfg, none,
     some (.obj [("message", .obj [("key", jget parsed "key")])])⟩
  | .fetch_profile_picture_url =>
    ⟨.post, toolUrl t cfg, hdrJsonKey cfg, none,
     some (.obj [("number", jget parsed "number")])⟩
  | .get_base64_from_media_message =>
    ⟨.post, toolUrl t cfg, hdrJsonKey cfg, none,
     some (.obj [("message", .obj [("key", jget parsed "messageKey")]),
                 ("convertToMp4", jget parsed "convertToMp4")])⟩
  | .update_message =>
    ⟨.post, toolUrl t cfg, hdrJsonKey cfg, none,
     some (.obj [("key", jget parsed "key"),
                 ("update", .obj [("text", jget parsed "text")])])⟩
  | .send_presence =>
    ⟨.post, toolUrl t cfg, hdrJsonKey cfg, none,
     some (.obj [("chatId", jget parsed "number"), ("presence", jget parsed "presence"),
                 ("duration", jget parsed "delay")])⟩
  | .update_block_status =>
    ⟨.post, toolUrl t cfg, hdrJsonKey cfg, none,
     some (.obj [("jid", jget parsed "number"), ("action", jget parsed "status")])⟩
  | .find_contacts =>
    ⟨.post, toolUrl t cfg, hdrJsonKey cfg, none, some (.obj [])⟩
  | .find_messages =>
    ⟨.post, toolUrl t cfg, hdrJsonKey cfg, none,
     some (.obj [("where", jget parsed "where"), ("page", jget parsed "page"),
                 ("limit", jget parsed "limit")])⟩
  | .fetch_profile =>
    ⟨.post, toolUrl t cfg, hdrJsonKey cfg, none,
     some (.obj [("number", jget parsed "number")])⟩
  | .update_profile_name =>
    ⟨.post, toolUrl t cfg, hdrJsonKey cfg, none,
     some (.obj [("name", jget parsed "name")])⟩
  | .update_profile_status =>
    ⟨.post, toolUrl t cfg, hdrJsonKey cfg, none,
     some (.obj [("status", jget parsed "status")])⟩
  | .update_profile_picture =>
    ⟨.post, toolUrl t cfg, hdrJsonKey cfg, none,
     some (.obj [("url", jget parsed "picture")])⟩
  | .remove_profile_picture =>
    ⟨.delete, toolUrl t cfg, hdrKey cfg, none, none⟩
  | .create_group =>
    ⟨.post, toolUrl t cfg, hdrJsonKey cfg, none,
     some (.obj [("subject", jget parsed "subject"),
                 ("description", jget parsed "description"),
                 ("participants", jget parsed "participants")])⟩
  | .fetch_all_groups =>
    ⟨.get, toolUrl t cfg, hdrKey cfg, some parsed, none⟩
  | .find_participants =>
    ⟨.get, toolUrl t cfg, hdrKey cfg,
     some (.obj [("groupJid", jget parsed "groupJid")]), none⟩
  | .update_participant =>
    ⟨.post, toolUrl t cfg, hdrJsonKey cfg,
     some (.obj [("groupJid", jget parsed "groupJid")]),
     some (.obj [("action", jget parsed "action"),
                 ("participants", jget parsed "participants")])⟩
  | .update_group_subject =>
    ⟨.post, toolUrl t cfg, hdrJsonKey cfg,
     some (.obj [("groupJid", jget parsed "groupJid")]),
     some (.obj [("subject", jget parsed "subject")])⟩
  | .update_group_description =>
    ⟨.post, toolUrl t cfg, hdrJsonKey cfg,
     some (.obj [("groupJid", jget parsed "groupJid")]),
     some (.obj [("description", jget parsed "description")])⟩
  | .update_group_picture =>
    ⟨.post, toolUrl t cfg, hdrJsonKey cfg,
     some (.obj [("groupJid", jget parsed "groupJid")]),
     some (.obj [("url", jget parsed "image")])⟩
  | .fetch_invite_code =>
    ⟨.get, toolUrl t cfg, hdrKey cfg,
     some (.obj [("groupJid", jget parsed "groupJid")]), none⟩
  | .revoke_invite_code =>
    ⟨.post, toolUrl t cfg, hdrKey cfg,
     some (.obj [("groupJid", jget parsed "groupJid")]), some (.obj [])⟩
  | .send_invite =>
    ⟨.post, toolUrl t cfg, hdrJsonKey cfg, none, some parsed⟩
  | .find_group_by_invite_code =>
    ⟨.get, toolUrl t cfg, hdrKey cfg,
     some (.obj [("inviteCode", jget parsed "inviteCode")]), none⟩
  | .find_group_by_jid =>
    ⟨.get, toolUrl t cfg, hdrKey cfg,
     some (.obj [("groupJid", jget parsed "groupJid")]), none⟩
  | .update_group_setting =>
    ⟨.post, toolUrl t cfg, hdrJsonKey cfg,
     some (.obj [("groupJid", jget parsed "groupJid")]),
     some (.obj [("action", jget parsed "action")])⟩
  | .toggle_ephemeral =>
    ⟨.post, toolUrl t cfg, hdrJsonKey cfg,
     some (.obj [("groupJid", jget parsed "groupJid")]),
     some (.obj [("expiration", jget parsed "expiration")])⟩
  | .leave_group =>
    ⟨.delete, toolUrl t cfg, hdrKey cfg,
     some (.obj [("groupJid", jget parsed "groupJid")]), none⟩
  | .find_webhook_settings =>
    ⟨.get, toolUrl t cfg, hdrKey cfg, none, none⟩

/-- One HTTP error response as seen by the axios catch block:
`error.response.status` and the decoded `error.response.data`. -/
structure RemoteResponse where
  status : Nat
  data : Json

/-- What the Remote Client produced for the single outbound call: a decoded
success body, or a failure that may carry an HTTP error response
(transport failures carry none) plus the `error.message` string. -/
inductive RemoteResult where
  | ok (data : Json)
  | fail (response : Option RemoteResponse) (message : String)

/-- The `errorText` computed in every catch block:
`error.response?.data ? JSON.stringify(error.response.data) : error.message`. -/
def errorText (responseData : Option Json) (message : String) : String :=
  match responseData with
  | some d => if jsTruthy d then (stringify d).getD "undefined" else message
  | none => message

/-- One `{ type: "text", text }` entry of a result envelope. -/
structure TextContent where
  type : String
  text : String

/-- The `{ content: [...] }` envelope every handler returns. -/
structure ResultEnvelope where
  content : List TextContent

/-- The "\n\n(QR Code base64 data received...)" suffix appended by
`connect_instance` and `restart_instance` when the response carries a
truthy `base64` field. -/
def qrSuffix (data : Json) : String :=
  if jsTruthy (jget data "base64") then
    "\n\n(QR Code base64 data received, cannot display image here)"
  else ""

/-- The `${parsed.expiration === 0 ? 'Off' : ...}` duration text of
`toggle_ephemeral` (`undefined / 86400` is NaN in JS). -/
def ephemeralDurationText (parsed : Json) : String :=
  match jget parsed "expiration" with
  | .num q => if q == 0 then "Off" else numToString (q / 86400) ++ " days"
  | _ => "NaN days"

/-- The success text each handler builds from its parsed arguments and the
decoded response data. -/
def successText (t : Tool) (parsed : Json) (data : Json) : String :=
  match t with
  | .create_instance => "Instance creation initiated. Response: " ++ pretty data
  | .fetch_instances => "Instances fetched: " ++ pretty data
  | .connect_instance =>
    "Connection status/QR code fetched: " ++ pretty data ++ qrSuffix data
  | .restart_instance =>
    "Instance restart initiated. Response: " ++ pretty data ++ qrSuffix data
  | .set_presence => "Presence set. Response: " ++ pretty data
  | .get_connection_state => "Connection state: " ++ pretty data
  | .logout_instance => "Instance logout initiated. Response: " ++ pretty data
  | .delete_instance => "Instance deletion initiated. Response: " ++ pretty data
  | .set_settings => "Settings updated. Response: " ++ pretty data
  | .find_settings => "Current settings: " ++ pretty data
  | .send_text =>
    "Text message sent to " ++ jsDisplay (jget parsed "number") ++
    ". Response: " ++ pretty data
  | .send_media =>
    "Media message (" ++ jsDisplay (jget parsed "mediatype") ++ ") sent to " ++
    jsDisplay (jget parsed "number") ++ ". Response: " ++ pretty data
  | .send_ptv =>
    "PTV sent to " ++ jsDisplay (jget parsed "number") ++ ". Response: " ++ pretty data
  | .send_whatsapp_audio =>
    "WhatsApp Audio sent to " ++ jsDisplay (jget parsed "number") ++
    ". Response: " ++ pretty data
  | .send_sticker =>
    "Sticker sent to " ++ jsDisplay (jget parsed "number") ++ ". Response: " ++ pretty data
  | .send_location =>
    "Location sent to " ++ jsDisplay (jget parsed "number") ++ ". Response: " ++ pretty data
  | .send_contact =>
    "Contact(s) sent to " ++ jsDisplay (jget parsed "number") ++
    ". Response: " ++ pretty data
  | .send_reaction =>
    "Reaction \x27" ++ jsDisplay (jget parsed "reaction") ++ "\x27 sent to message " ++
    jsDisplay (jget (jget parsed "key") "id") ++ ". Response: " ++ pretty data
  | .send_poll =>
    "Poll sent to " ++ jsDisplay (jget parsed "number") ++ ". Response: " ++ pretty data
  | .send_list =>
    "List message sent to " ++ jsDisplay (jget parsed "number") ++
    ". Response: " ++ pretty data
  | .send_buttons =>
    "Button message sent to " ++ jsDisplay (jget parsed "number") ++
    ". Response: " ++ pretty data
  | .check_whatsapp_numbers => "WhatsApp number check results: " ++ pretty data
  | .mark_message_as_read => "Marked messages as read. Response: " ++ pretty data
  | .archive_chat =>
    "Chat " ++ jsDisplay (jget parsed "chat") ++ " " ++
    (if jsTruthy (jget parsed "archive") then "archived" else "unarchived") ++
    ". Response: " ++ pretty data
  | .mark_chat_unread =>
    "Chat " ++ jsDisplay (jget parsed "chat") ++ " marked as unread. Response: " ++
    pretty data
  | .delete_message =>
    "Message deletion requested for " ++ jsDisplay (jget (jget parsed "key") "id") ++
    ". Response: " ++ pretty data
  | .fetch_profile_picture_url =>
    "Profile picture URL for " ++ jsDisplay (jget parsed "number") ++ ": " ++ pretty data
  | .get_base64_from_media_message =>
    if jsTruthy (jget data "base64") then
      "Successfully retrieved Base64 data for message " ++
      jsDisplay (jget (jget parsed "messageKey") "id") ++
      ". (Data too long to display). Mimetype: " ++ jsDisplay (jget data "mimetype")
    else
      "Media retrieval response for message " ++
      jsDisplay (jget (jget parsed "messageKey") "id") ++ ": " ++ pretty data
  | .update_message =>
    "Message " ++ jsDisplay (jget (jget parsed "key") "id") ++ " updated. Response: " ++
    pretty data
  | .send_presence =>
    "Presence \x27" ++ jsDisplay (jget parsed "presence") ++ "\x27 sent to " ++
    jsDisplay (jget parsed "number") ++ ". Response: " ++ pretty data
  | .update_block_status =>
    "Contact " ++ jsDisplay (jget parsed "number") ++ " " ++
    (if (match jget parsed "status" with | .str s => s == "block" | _ => false) then
       "blocked" else "unblocked") ++
    ". Response: " ++ pretty data
  | .find_contacts => "Contacts found: " ++ pretty data
  | .find_messages => "Messages found: " ++ pretty data
  | .fetch_profile =>
    "Profile for " ++ jsDisplay (jget parsed "number") ++ ": " ++ pretty data
  | .update_profile_name => "Profile name updated. Response: " ++ pretty data
  | .update_profile_status => "Profile status updated. Response: " ++ pretty data
  | .update_profile_picture =>
    "Profile picture update requested. Response: " ++ pretty data
  | .remove_profile_picture =>
    "Profile picture removal requested. Response: " ++ pretty data
  | .create_group =>
    "Group \x27" ++ jsDisplay (jget parsed "subject") ++
    "\x27 creation initiated. Response: " ++ pretty data
  | .fetch_all_groups => "Groups fetched: " ++ pretty data
  | .find_participants =>
    "Participants for group " ++ jsDisplay (jget parsed "groupJid") ++ ": " ++ pretty data
  | .update_participant =>
    "Participant update (" ++ jsDisplay (jget parsed "action") ++
    ") executed for group " ++ jsDisplay (jget parsed "groupJid") ++
    ". Response: " ++ pretty data
  | .update_group_subject =>
    "Group subject updated for " ++ jsDisplay (jget parsed "groupJid") ++
    ". Response: " ++ pretty data
  | .update_group_description =>
    "Group description updated for " ++ jsDisplay (jget parsed "groupJid") ++
    ". Response: " ++ pretty data
  | .update_group_picture =>
    "Group picture update requested for " ++ jsDisplay (jget parsed "groupJid") ++
    ". Response: " ++ pretty data
  | .fetch_invite_code =>
    "Invite code for " ++ jsDisplay (jget parsed "groupJid") ++ ": " ++ pretty data
  | .revoke_invite_code =>
    "Invite code revoked for " ++ jsDisplay (jget parsed "groupJid") ++
    ". New code: " ++ pretty data
  | .send_invite =>
    "Invites sent for group " ++ jsDisplay (jget parsed "groupJid") ++
    ". Response: " ++ pretty data
  | .find_group_by_invite_code =>
    "Group info for invite code " ++ jsDisplay (jget parsed "inviteCode") ++ ": " ++
    pretty data
  | .find_group_by_jid =>
    "Group info for " ++ jsDisplay (jget parsed "groupJid") ++ ": " ++ pretty data
  | .update_group_setting =>
    "Group setting \x27" ++ jsDisplay (jget parsed "action") ++ "\x27 updated for " ++
    jsDisplay (jget parsed "groupJid") ++ ". Response: " ++ pretty data
  | .toggle_ephemeral =>
    "Ephemeral messages set to " ++ ephemeralDurationText parsed ++ " for " ++
    jsDisplay (jget parsed "groupJid") ++ ". Response: " ++ pretty data
  | .leave_group =>
    "Left group " ++ jsDisplay (jget parsed "groupJid") ++ ". Response: " ++ pretty data
  | .find_webhook_settings => "Webhook settings: " ++ pretty data

/-- The fixed prefix of each handler's catch-block error text. -/
def errorLabel : Tool → String
  | .create_instance => "Error creating instance: "
  | .fetch_instances => "Error fetching instances: "
  | .connect_instance => "Error connecting instance: "
  | .restart_instance => "Error restarting instance: "
  | .set_presence => "Error setting presence: "
  | .get_connection_state => "Error getting connection state: "
  | .logout_instance => "Error logging out instance: "
  | .delete_instance => "Error deleting instance: "
  | .set_settings => "Error updating settings: "
  | .find_settings => "Error finding settings: "
  | .send_text => "Error sending text message: "
  | .send_media => "Error sending media message: "
  | .send_ptv => "Error sending PTV: "
  | .send_whatsapp_audio => "Error sending WhatsApp audio: "
  | .send_sticker => "Error sending sticker: "
  | .send_location => "Error sending location: "
  | .send_contact => "Error sending contact: "
  | .send_reaction => "Error sending reaction: "
  | .send_poll => "Error sending poll: "
  | .send_list => "Error sending list message: "
  | .send_buttons => "Error sending button message: "
  | .check_whatsapp_numbers => "Error checking WhatsApp numbers: "
  | .mark_message_as_read => "Error marking messages as read: "
  | .archive_chat => "Error archiving/unarchiving chat: "
  | .mark_chat_unread => "Error marking chat unread: "
  | .delete_message => "Error deleting message: "
  | .fetch_profile_picture_url => "Error fetching profile picture URL: "
  | .get_base64_from_media_message => "Error getting media Base64: "
  | .update_message => "Error updating message: "
  | .send_presence => "Error sending presence: "
  | .update_block_status => "Error updating block status: "
  | .find_contacts => "Error finding contacts: "
  | .find_messages => "Error finding messages: "
  | .fetch_profile => "Error fetching profile: "
  | .update_profile_name => "Error updating profile name: "
  | .update_profile_status => "Error updating profile status: "
  | .update_profile_picture => "Error updating profile picture: "
  | .remove_profile_picture => "Error removing profile picture: "
  | .create_group => "Error creating group: "
  | .fetch_all_groups => "Error fetching groups: "
  | .find_participants => "Error finding participants: "
  | .update_participant => "Error updating participants: "
  | .update_group_subject => "Error updating group subject: "
  | .update_group_description => "Error updating group description: "
  | .update_group_picture => "Error updating group picture: "
  | .fetch_invite_code => "Error fetching invite code: "
  | .revoke_invite_code => "Error revoking invite code: "
  | .send_invite => "Error sending invites: "
  | .find_group_by_invite_code => "Error finding group by invite code: "
  | .find_group_by_jid => "Error finding group by JID: "
  | .update_group_setting => "Error updating group setting: "
  | .toggle_ephemeral => "Error toggling ephemeral messages: "
  | .leave_group => "Error leaving group: "
  | .find_webhook_settings => "Error finding webhook settings: "

/-- The Response Formatter: wraps the remote outcome of one handler into
the uniform single-text-entry envelope (try/catch around the axios call). -/
def formatResult (t : Tool) (parsed : Json) : RemoteResult → ResultEnvelope
  | .ok data => ⟨[⟨"text", successText t parsed data⟩]⟩
  | .fail resp msg =>
    ⟨[⟨"text", errorLabel t ++ errorText (resp.map (·.data)) msg⟩]⟩

/-- The observable behaviour of one handler invocation: a thrown ZodError,
an envelope returned without any remote call, or exactly one outbound
request together with the envelope computed from whatever the Remote
Client returns for it. -/
inductive HandlerOutcome where
  | zodError (issues : List ZIssue)
  | replied (env : ResultEnvelope)
  | calls (req : OutboundRequest) (respond : RemoteResult → ResultEnvelope)

/-- One handler from `toolHandlers`, run on raw arguments: parse (when the
handler parses), the extra `fromMe` guard of `update_message`, then the
single axios call and the formatter. -/
def runToolHandler (t : Tool) (args : Json) (cfg : AmbientConfig) : HandlerOutcome :=
  if handlerParses t then
    match zparse (.zobject (toolInputs t)) args with
    | .error issues => .zodError issues
    | .ok parsed =>
      match t with
      | .update_message =>
        if jsTruthy (jget (jget parsed "key") "fromMe") then
          .calls (buildRequest t parsed cfg) (formatResult t parsed)
        else
          .replied ⟨[⟨"text",
            "Error: Can only edit messages sent by the bot instance (fromMe must be true)."⟩]⟩
      | _ => .calls (buildRequest t parsed cfg) (formatResult t parsed)
  else .calls (buildRequest t (.obj []) cfg) (formatResult t (.obj []))

/-- The validation-failure message thrown by the dispatcher for a ZodError:
`Input validation failed for tool ${name}: ${errors.map(e =>
path.join('.') + ': ' + message).join(', ')}`. -/
def validationMessage (name : String) (issues : List ZIssue) : String :=
  "Input validation failed for tool " ++ name ++ ": " ++
  String.intercalate ", "
    (issues.map (fun e => String.intercalate "." e.path ++ ": " ++ e.message))

/-- The `CallToolRequestSchema` dispatcher: looks the name up in
`toolHandlers`, runs the handler, and returns its envelope; a missing
handler raises "Unknown tool", and a ZodError escaping the handler is
re-raised as the formatted validation message. `.error` is an exception
propagated to the transport, `.ok` a returned envelope. -/
def dispatch (name : String) (args : Json) (cfg : AmbientConfig)
    (remote : RemoteResult) : Except String ResultEnvelope :=
  match toolOfName name with
  | none => .error ("Unknown tool: " ++ name)
  | some t =>
    match runToolHandler t args cfg with
    | .zodError issues => .error (validationMessage name issues)
    | .replied env => .ok env
    | .calls _ respond => .ok (respond remote)

/-- The outbound request the dispatch of `(name, args)` hands to the
Remote Client, if any: `none` means no network call is made. -/
def remoteCall (name : String) (args : Json) (cfg : AmbientConfig) :
    Option OutboundRequest :=
  match toolOfName name with
  | none => none
  | some t =>
    match runToolHandler t args cfg with
    | .calls req _ => some req
    | _ => none

/-! ## General lemmas -/

/-- A URL of scheme `https://` never equals one of scheme `http://`. -/
theorem https_ne_http (s t : String) : "https://" ++ s ≠ "http://" ++ t := by
  intro h
  have h2 := congrArg String.data h
  simp [String.data_append] at h2

/-- Lemma: `zparseFields` reads only the declared field names of its schema: two
argument objects agreeing on those keys validate identically. -/
theorem zparseFields_ext : ∀ (fs : ZFields) (a b : List (String × Json)),
    (∀ k ∈ fieldNames fs, jlookup a k = jlookup b k) →
    zparseFields fs a = zparseFields fs b
  | .fnil, _, _, _ => rfl
  | .fcons n mod s rest, a, b, h => by
    have hn : jlookup a n = jlookup b n := h n (by simp [fieldNames])
    have hr := zparseFields_ext rest a b
      (fun k hk => h k (by simp [fieldNames]; exact Or.inr hk))
    simp only [zparseFields, hn, hr]

/-- Lemma: `zparse` on an object schema reads only the declared keys. -/
theorem zparse_obj_ext (fs : ZFields) (a b : List (String × Json))
    (h : ∀ k ∈ fieldNames fs, jlookup a k = jlookup b k) :
    zparse (.zobject fs) (.obj a) = zparse (.zobject fs) (.obj b) := by
  have e := zparseFields_ext fs a b h
  simp only [zparse, e]

/-- The concrete ambient configuration of the spec's end-to-end scenarios:
apiKey "k", instanceId "inst1", apiBaseUrl "host:8080". -/
def cfgEx : AmbientConfig := ⟨"k", "inst1", some "host:8080"⟩

/-! ## Claim theorems -/

/-- C1 (counterexample): dispatching `send_text` with arguments that fail
its schema does not return a success-shaped envelope: the dispatcher
raises (models the re-thrown `Error`) the formatted validation message, so
`isOk` is false — while indeed no Remote Client call is made. -/
theorem validation_error_envelope_counterexample :
    dispatch "send_text" (Json.obj []) cfgEx (.ok .null) =
      .error "Input validation failed for tool send_text: number: Required, text: Required"
    ∧ (dispatch "send_text" (Json.obj []) cfgEx (.ok .null)).isOk = false
    ∧ remoteCall "send_text" (Json.obj []) cfgEx = none :=
  ⟨rfl, rfl, rfl⟩

/-- C1 (amended): for every operation whose handler validates its
arguments, a raw argument value failing the schema makes the dispatch
raise the formatted validation error (naming the tool and each violated
field path) to the transport, and no Remote Client call is made. -/
theorem validation_error_is_rethrown_and_no_remote_call
    (name : String) (t : Tool) (args : Json) (cfg : AmbientConfig)
    (remote : RemoteResult) (issues : List ZIssue)
    (hname : toolOfName name = some t) (hp : handlerParses t = true)
    (hz : zparse (.zobject (toolInputs t)) args = .error issues) :
    dispatch name args cfg remote = .error (validationMessage name issues) ∧
    remoteCall name args cfg = none := by
  unfold dispatch remoteCall runToolHandler
  simp only [hname, hp, hz, if_true]
  exact ⟨trivial, trivial⟩

/-- C1 (witness): the theorem at `send_text` with empty arguments. -/
theorem validation_error_witness :
    dispatch "send_text" (Json.obj []) cfgEx (.ok .null) =
      .error (validationMessage "send_text"
        [⟨["number"], "Required"⟩, ⟨["text"], "Required"⟩]) ∧
    remoteCall "send_text" (Json.obj []) cfgEx = none :=
  validation_error_is_rethrown_and_no_remote_call "send_text" .send_text
    (Json.obj []) cfgEx (.ok .null) _ rfl rfl rfl

/-- C2: dispatching `send_text` with number "5511999998888" and text
"hello" under apiKey "k", instanceId "inst1", apiBaseUrl "host:8080"
issues exactly one outbound POST to
`https://host:8080/message/sendText/inst1` with header `apikey: k` and
JSON body `{number, text, options: undefined}`. -/
theorem send_text_scenario_request :
    remoteCall "send_text"
      (Json.obj [("number", .str "5511999998888"), ("text", .str "hello")]) cfgEx =
    some ⟨.post, "https://host:8080/message/sendText/inst1", ⟨true, some "k"⟩, none,
          some (.obj [("number", .str "5511999998888"), ("text", .str "hello"),
                      ("options", .undefined)])⟩ := rfl

/-- C3: an operation name absent from the registry makes the dispatcher
raise "Unknown tool: ..." to the transport, with no validation run and no
Remote Client call. -/
theorem unknown_tool_raises_without_call
    (name : String) (args : Json) (cfg : AmbientConfig) (remote : RemoteResult)
    (h : toolOfName name = none) :
    dispatch name args cfg remote = .error ("Unknown tool: " ++ name) ∧
    remoteCall name args cfg = none := by
  unfold dispatch remoteCall
  rw [h]
  simp

/-- C3 (witness): the theorem at the name "does_not_exist". -/
theorem unknown_tool_witness :
    dispatch "does_not_exist" (Json.obj []) cfgEx (.ok .null) =
      .error ("Unknown tool: " ++ "does_not_exist") ∧
    remoteCall "does_not_exist" (Json.obj []) cfgEx = none :=
  unknown_tool_raises_without_call "does_not_exist" (Json.obj []) cfgEx
    (.ok .null) rfl

/-- C4 (counterexample): `delete_instance` does append the instance
identifier as the final URL path segment, contrary to the claim that
instance deletion addresses an instance-less endpoint. -/
theorem delete_instance_url_counterexample :
    toolUrl .delete_instance cfgEx = "https://host:8080/instance/delete/inst1" ∧
    toolUrl .delete_instance ⟨"k", "inst2", some "host:8080"⟩ =
      "https://host:8080/instance/delete/inst2" :=
  ⟨rfl, rfl⟩

/-- C4 (amended): every operation except `create_instance` and
`fetch_instances` appends the instance identifier as the final URL path
segment (after a "/" separator); those two address global endpoints whose
URL does not depend on the instance identifier at all. Instance deletion
(`delete_instance`) is instance-addressed, not global. -/
theorem instance_path_segment (t : Tool) (cfg : AmbientConfig) :
    (t ≠ .create_instance → t ≠ .fetch_instances →
      ∃ mid, toolUrl t cfg =
          "https://" ++ resolveApiBase cfg.apiBaseUrl ++ mid ++ cfg.instanceId ∧
        mid.data.getLast? = some '/') ∧
    ((t = .create_instance ∨ t = .fetch_instances) → ∀ id1 id2 : String,
      toolUrl t ⟨cfg.apiKey, id1, cfg.apiBaseUrl⟩ =
      toolUrl t ⟨cfg.apiKey, id2, cfg.apiBaseUrl⟩) := by
  cases t
  case create_instance => exact ⟨fun h _ => absurd rfl h, fun _ _ _ => rfl⟩
  case fetch_instances => exact ⟨fun _ h => absurd rfl h, fun _ _ _ => rfl⟩
  all_goals exact ⟨fun _ _ => ⟨_, rfl, rfl⟩, fun h _ _ => absurd h (by decide)⟩

/-- C4 (witness): the theorem at `send_text` under the scenario config. -/
theorem instance_path_segment_witness :
    ∃ mid, toolUrl .send_text cfgEx =
        "https://" ++ resolveApiBase cfgEx.apiBaseUrl ++ mid ++ cfgEx.instanceId ∧
      mid.data.getLast? = some '/' :=
  (instance_path_segment .send_text cfgEx).1 (by decide) (by decide)

/-- C5 (counterexample): `get_connection_state` does send the `apikey`
header, contrary to the claim that it omits it. -/
theorem get_connection_state_header_counterexample :
    (buildRequest .get_connection_state (Json.obj []) cfgEx).headers.apikey
      = some "k" ∧
    (buildRequest .get_connection_state (Json.obj []) cfgEx).headers.apikey
      ≠ none :=
  ⟨rfl, by decide⟩

/-- C5 (amended): every operation except `connect_instance` sends the
`apikey` header carrying AmbientConfig.apiKey; `connect_instance` alone
omits it. -/
theorem apikey_header_coverage (t : Tool) (parsed : Json) (cfg : AmbientConfig) :
    (t ≠ .connect_instance →
      (buildRequest t parsed cfg).headers.apikey = some cfg.apiKey) ∧
    (buildRequest .connect_instance parsed cfg).headers.apikey = none := by
  constructor
  · intro h
    cases t
    case connect_instance => exact absurd rfl h
    all_goals rfl
  · rfl

/-- C5 (witness): the theorem at `send_text` under the scenario config. -/
theorem apikey_header_witness :
    (buildRequest .send_text (Json.obj []) cfgEx).headers.apikey = some "k" :=
  (apikey_header_coverage .send_text (Json.obj []) cfgEx).1 (by decide)

/-- C6 (counterexample): when `key.fromMe` is absent, `update_message`
validation fails with the generic zod message "Required" at path
`key.fromMe`, not with the claimed specific message. -/
theorem update_message_absent_fromMe_counterexample :
    zparse (.zobject (toolInputs .update_message))
      (.obj [("key", .obj [("id", .str "MSGID1"),
                           ("remoteJid", .str "5511999998888@s.whatsapp.net")]),
             ("text", .str "edited")]) =
      .error [⟨["key", "fromMe"], "Required"⟩] ∧
    "Required" ≠ "Can only edit messages sent by the bot (fromMe must be true)." :=
  ⟨rfl, by decide⟩

/-- C6 (amended): `update_message` rejects `key.fromMe = false` with
exactly the specific refinement message (and makes no Remote Client
call); an absent `key.fromMe` also fails validation with no call, but
with the generic "Required" message at path `key.fromMe`; a literal
`true` passes the refinement and the handler issues its request. -/
theorem update_message_fromMe_refinement (id rj txt : String) (cfg : AmbientConfig) :
    (zparse (.zobject (toolInputs .update_message))
        (.obj [("key", .obj [("id", .str id), ("remoteJid", .str rj),
                             ("fromMe", .bool false)]),
               ("text", .str txt)]) =
       .error [⟨["key", "fromMe"],
                "Can only edit messages sent by the bot (fromMe must be true)."⟩] ∧
     remoteCall "update_message"
        (.obj [("key", .obj [("id", .str id), ("remoteJid", .str rj),
                             ("fromMe", .bool false)]),
               ("text", .str txt)]) cfg = none) ∧
    (zparse (.zobject (toolInputs .update_message))
        (.obj [("key", .obj [("id", .str id), ("remoteJid", .str rj)]),
               ("text", .str txt)]) =
       .error [⟨["key", "fromMe"], "Required"⟩] ∧
     remoteCall "update_message"
        (.obj [("key", .obj [("id", .str id), ("remoteJid", .str rj)]),
               ("text", .str txt)]) cfg = none) ∧
    (∃ req respond,
      runToolHandler .update_message
        (.obj [("key", .obj [("id", .str id), ("remoteJid", .str rj),
                             ("fromMe", .bool true)]),
               ("text", .str txt)]) cfg = .calls req respond) :=
  ⟨⟨rfl, rfl⟩, ⟨rfl, rfl⟩, ⟨_, _, rfl⟩⟩

/-- C7: the declared defaults are filled into the validated arguments when
the field is omitted: `send_poll.selectableCount` becomes 1,
`find_messages.limit` becomes 10 (and `page` 1), and
`create_instance.qrcode` becomes true; likewise for every other declared
default in the catalog (`send_presence.delay` 1200,
`fetch_all_groups.getParticipants` false,
`get_base64_from_media_message.convertToMp4` false, and the nested
`options.mentionsEveryOne` false of `send_text`). -/
theorem declared_defaults_applied (num nm v inm : String) :
    zparse (.zobject (toolInputs .send_poll))
      (.obj [("number", .str num), ("name", .str nm), ("values", .arr [.str v])]) =
      .ok (.obj [("number", .str num), ("name", .str nm),
                 ("selectableCount", .num 1), ("values", .arr [.str v])]) ∧
    zparse (.zobject (toolInputs .find_messages)) (.obj []) =
      .ok (.obj [("page", .num 1), ("limit", .num 10)]) ∧
    zparse (.zobject (toolInputs .create_instance))
      (.obj [("instanceName", .str inm)]) =
      .ok (.obj [("instanceName", .str inm), ("qrcode", .bool true)]) ∧
    zparse (.zobject (toolInputs .send_presence))
      (.obj [("number", .str num), ("presence", .str "composing")]) =
      .ok (.obj [("number", .str num), ("presence", .str "composing"),
                 ("delay", .num 1200)]) ∧
    zparse (.zobject (toolInputs .fetch_all_groups)) (.obj []) =
      .ok (.obj [("getParticipants", .bool false)]) ∧
    zparse (.zobject (toolInputs .get_base64_from_media_message))
      (.obj [("messageKey", .obj [("id", .str nm), ("remoteJid", .str num),
                                  ("fromMe", .bool true)])]) =
      .ok (.obj [("messageKey", .obj [("id", .str nm), ("remoteJid", .str num),
                                      ("fromMe", .bool true)]),
                 ("convertToMp4", .bool false)]) ∧
    zparse (.zobject (toolInputs .send_text))
      (.obj [("number", .str num), ("text", .str nm), ("options", .obj [])]) =
      .ok (.obj [("number", .str num), ("text", .str nm),
                 ("options", .obj [("mentionsEveryOne", .bool false)])]) :=
  ⟨rfl, rfl, rfl, rfl, rfl, rfl, rfl⟩

/-- C8: an HTTP 500 with body `{"error":"down"}` on `send_text` yields an
ordinary envelope whose single text entry embeds the literal serialized
error body, with no exception to the transport; and the formatter is
total, always producing a single-text-entry envelope. -/
theorem remote_error_envelope_and_formatter_total :
    dispatch "send_text"
      (Json.obj [("number", .str "5511999998888"), ("text", .str "hello")]) cfgEx
      (.fail (some ⟨500, .obj [("error", .str "down")]⟩)
        "Request failed with status code 500") =
      .ok ⟨[⟨"text", "Error sending text message: \x7b\"error\":\"down\"\x7d"⟩]⟩ ∧
    ∀ (t : Tool) (parsed : Json) (r : RemoteResult),
      ∃ txt, formatResult t parsed r = ⟨[⟨"text", txt⟩]⟩ :=
  ⟨rfl, fun t parsed r => by cases r <;> exact ⟨_, rfl⟩⟩

/-- C9: for every operation whose handler parses its arguments, argument
keys not declared in the schema are stripped by validation and cannot
influence the handler's behaviour: raw objects agreeing on the declared
keys give the same outcome (hence identical outbound method, URL, headers,
query parameters and body, and the same formatted envelope). -/
theorem undeclared_fields_do_not_influence_request
    (t : Tool) (cfg : AmbientConfig) (a b : List (String × Json))
    (hp : handlerParses t = true)
    (h : ∀ k ∈ fieldNames (toolInputs t), jlookup a k = jlookup b k) :
    runToolHandler t (.obj a) cfg = runToolHandler t (.obj b) cfg ∧
    ∀ name, toolOfName name = some t →
      remoteCall name (.obj a) cfg = remoteCall name (.obj b) cfg := by
  have main : runToolHandler t (.obj a) cfg = runToolHandler t (.obj b) cfg := by
    unfold runToolHandler
    rw [hp, zparse_obj_ext (toolInputs t) a b h]
  refine ⟨main, fun name hn => ?_⟩
  unfold remoteCall
  simp only [hn, main]

/-- C9 (witness): the theorem at `send_text` where one argument object
carries an extra undeclared key "junk". -/
theorem undeclared_fields_witness :
    runToolHandler .send_text
      (.obj [("number", .str "5511999998888"), ("text", .str "hello"),
             ("junk", .num 5)]) cfgEx =
    runToolHandler .send_text
      (.obj [("number", .str "5511999998888"), ("text", .str "hello")]) cfgEx :=
  (undeclared_fields_do_not_influence_request .send_text cfgEx _ _ rfl (by
    intro k hk
    have e : fieldNames (toolInputs .send_text) = ["number", "text", "options"] := rfl
    rw [e] at hk
    simp only [List.mem_cons, List.not_mem_nil, or_false] at hk
    rcases hk with rfl | rfl | rfl <;> rfl)).1

/-- C10: every handler's URL is the literal scheme "https://" followed by
the resolved API base (so also when the base falls back to its default
"localhost:8080"), and never an `http://` URL; each request carries
exactly that URL. -/
theorem urls_always_https (t : Tool) (cfg : AmbientConfig) :
    (∀ parsed, (buildRequest t parsed cfg).url = toolUrl t cfg) ∧
    ∃ rest, toolUrl t cfg = ("https://" ++ resolveApiBase cfg.apiBaseUrl) ++ rest ∧
      ∀ u, toolUrl t cfg ≠ "http://" ++ u := by
  refine ⟨by intro parsed; cases t <;> rfl, ?_⟩
  have shape : ∃ rest,
      toolUrl t cfg = ("https://" ++ resolveApiBase cfg.apiBaseUrl) ++ rest := by
    cases t <;> first
      | exact ⟨_, rfl⟩
      | exact ⟨_, String.append_assoc _ _ _⟩
  obtain ⟨rest, hr⟩ := shape
  refine ⟨rest, hr, fun u hu => ?_⟩
  rw [hr, String.append_assoc] at hu
  exact https_ne_http _ _ hu

end EvoMcp
